import Mathlib

/-!
Shallow embedding of the event-sourced nutrition tracker backend
(src/backend/src/main.rs).

The store is modelled as two in-memory append-only lists standing for the
SQLite tables nutrient_events and goal_events.  The columns id and timestamp
are advisory only and are read by no query in the core, so events carry just
the business columns; list order is insertion order (the id order).  SQL
aggregation is modelled faithfully:
  - SELECT SUM(...) WHERE ... on an empty row set returns NULL, hence the
    guard queries return Option Int (none for no rows);
  - SELECT ... GROUP BY emits one row per distinct key that has at least one
    row, and the Rust handlers collect those rows into a HashMap; the map is
    modelled as an association list built by a grouping fold, observed only
    through lookup.
The mutex serialises every handler, so the system is a sequential transition
function on the store; store failures are out of scope (the spec treats the
store as an external collaborator), so the model store is infallible and the
error type carries only the InvalidRequest case.
-/

inductive NutrientKind
  | consume
  | unconsume
deriving DecidableEq

inductive GoalKind
  | inc
  | dec
deriving DecidableEq

/-- One row of nutrient_events (business columns only: name, date, type). -/
structure NutrientEvent where
  name : String
  date : String
  kind : NutrientKind
deriving DecidableEq

/-- One row of goal_events (business columns only: nutrient, type). -/
structure GoalEvent where
  nutrient : String
  kind : GoalKind
deriving DecidableEq

/-- The whole store: the two append-only tables. -/
structure DB where
  nutrient_events : List NutrientEvent
  goal_events : List GoalEvent
deriving DecidableEq

def dbEmpty : DB := ⟨[], []⟩

/-- CASE type WHEN consume THEN 1 ELSE -1. -/
def kindVal : NutrientKind → Int
  | .consume => 1
  | .unconsume => -1

/-- CASE type WHEN inc THEN 1 ELSE -1. -/
def goalKindVal : GoalKind → Int
  | .inc => 1
  | .dec => -1

/-- The regex r"[[:digit:]]{4}-[[:digit:]]{2}-[[:digit:]]{2}" matching at one
position: the next ten characters are dddd-dd-dd (anything may follow). -/
def datePatternAt : List Char → Bool
  | a :: b :: c :: d :: '-' :: e :: f :: '-' :: g :: h :: _ =>
    a.isDigit && b.isDigit && c.isDigit && d.isDigit &&
    e.isDigit && f.isDigit && g.isDigit && h.isDigit
  | _ => false

/-- Regex search as Regex::is_match does it: try every start position. -/
def searchDatePattern : List Char → Bool
  | [] => false
  | c :: cs => datePatternAt (c :: cs) || searchDatePattern cs

/-- fn is_valid_date: RE.is_match(date), an unanchored search. -/
def is_valid_date (s : String) : Bool :=
  searchDatePattern s.data

/-- fn is_valid_nutrient: membership in the fixed array of four names. -/
def is_valid_nutrient (nutrient : String) : Bool :=
  ["protein", "carbs", "vegetables", "fats"].contains nutrient

/-- SELECT SUM(CASE ...) FROM nutrient_events WHERE date = ? AND name = ?,
with SQL NULL (none) when no row matches. -/
def nutrientCount (es : List NutrientEvent) (date name : String) : Option Int :=
  let rows := es.filter fun e => e.date == date && e.name == name
  if rows.isEmpty then none else some ((rows.map fun e => kindVal e.kind).sum)

/-- SELECT SUM(CASE ...) FROM goal_events WHERE nutrient = ?, with SQL NULL
(none) when no row matches. -/
def goalCount (es : List GoalEvent) (nutrient : String) : Option Int :=
  let rows := es.filter fun e => e.nutrient == nutrient
  if rows.isEmpty then none else some ((rows.map fun e => goalKindVal e.kind).sum)

/-- Option::is_none_or(|x| x == 0), the guard of the two decrementing ops. -/
def isNoneOrZero : Option Int → Bool
  | none => true
  | some x => x == 0

/-- Add one (key, weight) row into the accumulating map: bump the existing
entry for the key, or append a fresh entry. -/
def addRow (m : List (String × Int)) (k : String) (v : Int) : List (String × Int) :=
  match m with
  | [] => [(k, v)]
  | (k0, v0) :: rest =>
    if k0 == k then (k0, v0 + v) :: rest else (k0, v0) :: addRow rest k v

/-- SUM(...) GROUP BY key over a list of (key, weight) rows, collected into a
map as the Rust handlers collect the result rows into a HashMap. -/
def groupSum (rows : List (String × Int)) : List (String × Int) :=
  rows.foldl (fun m r => addRow m r.1 r.2) []

/-- HashMap lookup on the collected result map. -/
def lookupVal (m : List (String × Int)) (k : String) : Option Int :=
  match m with
  | [] => none
  | (k0, v0) :: rest => if k0 == k then some v0 else lookupVal rest k

/-- GET /days/.../portions: SELECT name, SUM(CASE type WHEN consume THEN 1
ELSE -1 END) FROM nutrient_events WHERE date = ? GROUP BY name. -/
def get_portions_for_date (db : DB) (date : String) : List (String × Int) :=
  groupSum ((db.nutrient_events.filter fun e => e.date == date).map
    fun e => (e.name, kindVal e.kind))

/-- GET /goals: SELECT nutrient, SUM(CASE type WHEN inc THEN 1 ELSE -1 END)
FROM goal_events GROUP BY nutrient. -/
def get_goals (db : DB) : List (String × Int) :=
  groupSum (db.goal_events.map fun e => (e.nutrient, goalKindVal e.kind))

/-- The application error taxonomy; the store is infallible in the model, so
only the InvalidRequest case arises.  The two guard messages in the source
spell cannot with a contraction; they are transliterated here. -/
inductive AppError
  | invalidRequest : String → AppError
deriving DecidableEq

/-- POST .../consume: validate date and nutrient, then insert one consume row. -/
def consume_portion (db : DB) (date nutrient : String) : Except AppError DB :=
  if !is_valid_date date then
    .error (.invalidRequest "invalid date")
  else if !is_valid_nutrient nutrient then
    .error (.invalidRequest "invalid nutrient")
  else
    .ok { db with nutrient_events := db.nutrient_events ++ [⟨nutrient, date, NutrientKind.consume⟩] }

/-- POST .../unconsume: validate, read the current count, refuse when it is
NULL or 0, otherwise insert one unconsume row. -/
def unconsume_portion (db : DB) (date nutrient : String) : Except AppError DB :=
  if !is_valid_date date then
    .error (.invalidRequest "invalid date")
  else if !is_valid_nutrient nutrient then
    .error (.invalidRequest "invalid nutrient")
  else if isNoneOrZero (nutrientCount db.nutrient_events date nutrient) then
    .error (.invalidRequest "cannot unconsume because the count is already 0")
  else
    .ok { db with nutrient_events := db.nutrient_events ++ [⟨nutrient, date, NutrientKind.unconsume⟩] }

/-- POST /goals/portions/.../inc: validate the nutrient, insert one inc row. -/
def inc_goal (db : DB) (nutrient : String) : Except AppError DB :=
  if !is_valid_nutrient nutrient then
    .error (.invalidRequest "invalid nutrient")
  else
    .ok { db with goal_events := db.goal_events ++ [⟨nutrient, GoalKind.inc⟩] }

/-- POST /goals/portions/.../dec: validate, read the current goal, refuse when
it is NULL or 0, otherwise insert one dec row. -/
def dec_goal (db : DB) (nutrient : String) : Except AppError DB :=
  if !is_valid_nutrient nutrient then
    .error (.invalidRequest "invalid nutrient")
  else if isNoneOrZero (goalCount db.goal_events nutrient) then
    .error (.invalidRequest "cannot decrease because the goal is already 0")
  else
    .ok { db with goal_events := db.goal_events ++ [⟨nutrient, GoalKind.dec⟩] }

/-- The six HTTP operations of the API. -/
inductive Op
  | consume (date nutrient : String)
  | unconsume (date nutrient : String)
  | incGoal (nutrient : String)
  | decGoal (nutrient : String)
  | queryDay (date : String)
  | queryGoals
deriving DecidableEq

/-- What a successful response carries. -/
inductive Output
  | success
  | dayMap (m : List (String × Int))
  | goalMap (m : List (String × Int))

def Op.isQuery : Op → Bool
  | .queryDay _ => true
  | .queryGoals => true
  | _ => false

/-- One serialised request: the store after the handler ran, and the
response.  A failed command leaves the store as it was. -/
def runOp (db : DB) : Op → DB × Except AppError Output
  | .consume d n =>
    match consume_portion db d n with
    | .ok db1 => (db1, .ok .success)
    | .error e => (db, .error e)
  | .unconsume d n =>
    match unconsume_portion db d n with
    | .ok db1 => (db1, .ok .success)
    | .error e => (db, .error e)
  | .incGoal n =>
    match inc_goal db n with
    | .ok db1 => (db1, .ok .success)
    | .error e => (db, .error e)
  | .decGoal n =>
    match dec_goal db n with
    | .ok db1 => (db1, .ok .success)
    | .error e => (db, .error e)
  | .queryDay d => (db, .ok (.dayMap (get_portions_for_date db d)))
  | .queryGoals => (db, .ok (.goalMap (get_goals db)))

/-- The store after a request, ignoring the response. -/
def applyOp (db : DB) (op : Op) : DB := (runOp db op).1

/-- The store after a sequence of requests (failures leave it unchanged). -/
def runOps (db : DB) (ops : List Op) : DB := ops.foldl applyOp db

/-- Run a sequence of requests insisting that every one succeeds. -/
def runAll (db : DB) : List Op → Option DB
  | [] => some db
  | op :: rest =>
    match runOp db op with
    | (db1, .ok _) => runAll db1 rest
    | (_, .error _) => none

/-- The signed per-key sum the spec calls the derived CurrentValue:
+1 per consume event, -1 per unconsume event of the key. -/
def portionSum (es : List NutrientEvent) (date name : String) : Int :=
  ((es.filter fun e => e.date == date && e.name == name).map fun e => kindVal e.kind).sum

/-- The signed per-nutrient sum for goals: +1 per inc event, -1 per dec. -/
def goalSum (es : List GoalEvent) (nutrient : String) : Int :=
  ((es.filter fun e => e.nutrient == nutrient).map fun e => goalKindVal e.kind).sum

/-- The shape the spec ascribes to validateDate: the WHOLE string is
dddd-dd-dd.  (Second definition for the refinement comparison in C5; the
source definition is is_valid_date above.) -/
def specDateExactMatch (s : String) : Bool :=
  match s.data with
  | [a, b, c, d, '-', e, f, '-', g, h] =>
    a.isDigit && b.isDigit && c.isDigit && d.isDigit &&
    e.isDigit && f.isDigit && g.isDigit && h.isDigit
  | _ => false

example : is_valid_date "2026-01-01" = true := by decide
example : is_valid_date "0000-99-99" = true := by decide
example : is_valid_date "2026-1-1" = false := by decide
example : is_valid_date "x2026-01-01" = true := by decide
example : specDateExactMatch "x2026-01-01" = false := by decide
example : is_valid_nutrient "protein" = true := by decide
example : is_valid_nutrient "Protein" = false := by decide

/-! ### Group-by correctness: lookup into the collected map is the SQL SUM -/

/-- The signed sum of the weights of the rows carrying one key. -/
def rowSum (rows : List (String × Int)) (k : String) : Int :=
  ((rows.filter fun r => r.1 == k).map Prod.snd).sum

theorem lookupVal_addRow (m : List (String × Int)) (k j : String) (v : Int) :
    lookupVal (addRow m k v) j =
      if j = k then
        match lookupVal m k with
        | some w => some (w + v)
        | none => some v
      else lookupVal m j := by
  induction m with
  | nil =>
    by_cases h : j = k
    · subst h; simp [addRow, lookupVal]
    · simp [addRow, lookupVal, h, Ne.symm h]
  | cons p rest ih =>
    obtain ⟨k0, v0⟩ := p
    by_cases hk : k0 = k
    · subst hk
      by_cases hj : j = k0
      · subst hj; simp [addRow, lookupVal]
      · simp [addRow, lookupVal, hj, Ne.symm hj]
    · by_cases hj : k0 = j
      · have hjk : ¬ j = k := fun hh => hk (hj.trans hh)
        simp [addRow, lookupVal, hk, hj, hjk]
      · simp [addRow, lookupVal, hk, hj, ih]

theorem rowSum_nil (k : String) : rowSum [] k = 0 := rfl

theorem rowSum_cons (r : String × Int) (rows : List (String × Int)) (k : String) :
    rowSum (r :: rows) k = if r.1 = k then r.2 + rowSum rows k else rowSum rows k := by
  by_cases h : r.1 = k <;> simp [rowSum, List.filter_cons, h]

theorem lookupVal_foldl_addRow (rows : List (String × Int)) (m : List (String × Int))
    (k : String) :
    lookupVal (rows.foldl (fun acc r => addRow acc r.1 r.2) m) k =
      match lookupVal m k with
      | some w => some (w + rowSum rows k)
      | none => if rows.any (fun r => r.1 == k) then some (rowSum rows k) else none := by
  induction rows generalizing m with
  | nil => cases h : lookupVal m k <;> simp [rowSum, h]
  | cons r rest ih =>
    rw [List.foldl_cons, ih, lookupVal_addRow]
    by_cases hr : r.1 = k
    · cases h : lookupVal m k <;> simp [hr, h, rowSum_cons, add_assoc]
    · have hb : (r.1 == k) = false := by simp [hr]
      cases h : lookupVal m k <;>
        cases ha : rest.any (fun r => r.1 == k) <;>
          simp [hr, Ne.symm hr, hb, h, ha, rowSum_cons]

theorem lookupVal_groupSum (rows : List (String × Int)) (k : String) :
    lookupVal (groupSum rows) k =
      if rows.any (fun r => r.1 == k) then some (rowSum rows k) else none := by
  have h := lookupVal_foldl_addRow rows [] k
  simpa [groupSum, lookupVal] using h

/-- The guard query written as a conditional on event existence, its some
value being the signed derived sum. -/
theorem nutrientCount_eq_iteAny (es : List NutrientEvent) (date n : String) :
    nutrientCount es date n =
      if es.any (fun e => e.date == date && e.name == n)
      then some (portionSum es date n) else none := by
  rw [nutrientCount]
  by_cases h : (es.any fun e => e.date == date && e.name == n) = true
  · obtain ⟨x, hx, hqx⟩ := List.any_eq_true.mp h
    have hne : ((es.filter fun e => e.date == date && e.name == n).isEmpty) = false := by
      rw [List.isEmpty_eq_false]
      exact fun hnil => by simpa using List.filter_eq_nil_iff.mp hnil x hx hqx
    simp [h, hne, portionSum]
  · have hnil : (es.filter fun e => e.date == date && e.name == n) = [] := by
      rw [List.filter_eq_nil_iff]
      exact fun a ha hq => h (List.any_eq_true.mpr ⟨a, ha, hq⟩)
    simp [h, hnil]

theorem goalCount_eq_iteAny (es : List GoalEvent) (n : String) :
    goalCount es n =
      if es.any (fun e => e.nutrient == n)
      then some (goalSum es n) else none := by
  rw [goalCount]
  by_cases h : (es.any fun e => e.nutrient == n) = true
  · obtain ⟨x, hx, hqx⟩ := List.any_eq_true.mp h
    have hne : ((es.filter fun e => e.nutrient == n).isEmpty) = false := by
      rw [List.isEmpty_eq_false]
      exact fun hnil => by simpa using List.filter_eq_nil_iff.mp hnil x hx hqx
    simp [h, hne, goalSum]
  · have hnil : (es.filter fun e => e.nutrient == n) = [] := by
      rw [List.filter_eq_nil_iff]
      exact fun a ha hq => h (List.any_eq_true.mpr ⟨a, ha, hq⟩)
    simp [h, hnil]

theorem any_over_map {α β : Type} (l : List α) (f : α → β) (p : β → Bool) :
    (l.map f).any p = l.any fun a => p (f a) := by
  induction l with
  | nil => rfl
  | cons x xs ih => simp only [List.map_cons, List.any_cons, ih]

/-- Looking one nutrient up in the day query result is exactly the guard
query for that (date, nutrient): the GROUP BY emits a key iff it has a
matching event, with the signed sum as value. -/
theorem lookupVal_get_portions (db : DB) (date n : String) :
    lookupVal (get_portions_for_date db date) n = nutrientCount db.nutrient_events date n := by
  rw [get_portions_for_date, lookupVal_groupSum, nutrientCount_eq_iteAny]
  have hany : (((db.nutrient_events.filter fun e => e.date == date).map
      fun e => (e.name, kindVal e.kind)).any fun r => r.1 == n)
      = db.nutrient_events.any fun e => e.date == date && e.name == n := by
    rw [any_over_map, List.any_filter]
  have hsum : rowSum ((db.nutrient_events.filter fun e => e.date == date).map
      fun e => (e.name, kindVal e.kind)) n = portionSum db.nutrient_events date n := by
    rw [rowSum, portionSum, List.filter_map, List.filter_filter, List.map_map]
    simp only [Function.comp_def]
    simp [Bool.and_comm]
  rw [hany, hsum]

theorem lookupVal_get_goals (db : DB) (n : String) :
    lookupVal (get_goals db) n = goalCount db.goal_events n := by
  rw [get_goals, lookupVal_groupSum, goalCount_eq_iteAny]
  have hany : ((db.goal_events.map fun e => (e.nutrient, goalKindVal e.kind)).any
      fun r => r.1 == n) = db.goal_events.any fun e => e.nutrient == n := by
    rw [any_over_map]
  have hsum : rowSum (db.goal_events.map fun e => (e.nutrient, goalKindVal e.kind)) n
      = goalSum db.goal_events n := by
    rw [rowSum, goalSum, List.filter_map, List.map_map]
    simp only [Function.comp_def]
  rw [hany, hsum]

/-! ### How one append changes the derived sums and counts -/

theorem portionSum_append (es fs : List NutrientEvent) (d n : String) :
    portionSum (es ++ fs) d n = portionSum es d n + portionSum fs d n := by
  simp [portionSum, List.filter_append]

theorem goalSum_append (es fs : List GoalEvent) (n : String) :
    goalSum (es ++ fs) n = goalSum es n + goalSum fs n := by
  simp [goalSum, List.filter_append]

theorem portionSum_single (e : NutrientEvent) (d n : String) :
    portionSum [e] d n = if e.date == d && e.name == n then kindVal e.kind else 0 := by
  by_cases h : (e.date == d && e.name == n) = true <;>
    simp [portionSum, List.filter_cons, h]

theorem goalSum_single (e : GoalEvent) (n : String) :
    goalSum [e] n = if e.nutrient == n then goalKindVal e.kind else 0 := by
  by_cases h : (e.nutrient == n) = true <;> simp [goalSum, List.filter_cons, h]

theorem nutrientCount_append_matching (es : List NutrientEvent) (e : NutrientEvent)
    (d n : String) (hm : (e.date == d && e.name == n) = true) :
    nutrientCount (es ++ [e]) d n = some (portionSum es d n + kindVal e.kind) := by
  rw [nutrientCount_eq_iteAny]
  simp [hm, portionSum_append, portionSum_single]

theorem nutrientCount_append_other (es : List NutrientEvent) (e : NutrientEvent)
    (d n : String) (hm : (e.date == d && e.name == n) = false) :
    nutrientCount (es ++ [e]) d n = nutrientCount es d n := by
  rw [nutrientCount_eq_iteAny, nutrientCount_eq_iteAny]
  simp [hm, portionSum_append, portionSum_single]

theorem goalCount_append_matching (es : List GoalEvent) (e : GoalEvent)
    (n : String) (hm : (e.nutrient == n) = true) :
    goalCount (es ++ [e]) n = some (goalSum es n + goalKindVal e.kind) := by
  rw [goalCount_eq_iteAny]
  simp [hm, goalSum_append, goalSum_single]

theorem goalCount_append_other (es : List GoalEvent) (e : GoalEvent)
    (n : String) (hm : (e.nutrient == n) = false) :
    goalCount (es ++ [e]) n = goalCount es n := by
  rw [goalCount_eq_iteAny, goalCount_eq_iteAny]
  simp [hm, goalSum_append, goalSum_single]

/-! ### Handler case analyses -/

theorem consume_portion_ok (db : DB) (d n : String)
    (hd : is_valid_date d = true) (hn : is_valid_nutrient n = true) :
    consume_portion db d n =
      .ok { db with nutrient_events := db.nutrient_events ++ [⟨n, d, NutrientKind.consume⟩] } := by
  simp [consume_portion, hd, hn]

theorem consume_portion_bad_date (db : DB) (d n : String)
    (hd : is_valid_date d = false) :
    consume_portion db d n = .error (.invalidRequest "invalid date") := by
  simp [consume_portion, hd]

theorem consume_portion_bad_nutrient (db : DB) (d n : String)
    (hd : is_valid_date d = true) (hn : is_valid_nutrient n = false) :
    consume_portion db d n = .error (.invalidRequest "invalid nutrient") := by
  simp [consume_portion, hd, hn]

theorem unconsume_portion_ok (db : DB) (d n : String)
    (hd : is_valid_date d = true) (hn : is_valid_nutrient n = true)
    (hg : isNoneOrZero (nutrientCount db.nutrient_events d n) = false) :
    unconsume_portion db d n =
      .ok { db with nutrient_events := db.nutrient_events ++ [⟨n, d, NutrientKind.unconsume⟩] } := by
  simp [unconsume_portion, hd, hn, hg]

theorem unconsume_portion_guard (db : DB) (d n : String)
    (hd : is_valid_date d = true) (hn : is_valid_nutrient n = true)
    (hg : isNoneOrZero (nutrientCount db.nutrient_events d n) = true) :
    unconsume_portion db d n =
      .error (.invalidRequest "cannot unconsume because the count is already 0") := by
  simp [unconsume_portion, hd, hn, hg]

theorem unconsume_portion_bad_date (db : DB) (d n : String)
    (hd : is_valid_date d = false) :
    unconsume_portion db d n = .error (.invalidRequest "invalid date") := by
  simp [unconsume_portion, hd]

theorem unconsume_portion_bad_nutrient (db : DB) (d n : String)
    (hd : is_valid_date d = true) (hn : is_valid_nutrient n = false) :
    unconsume_portion db d n = .error (.invalidRequest "invalid nutrient") := by
  simp [unconsume_portion, hd, hn]

theorem inc_goal_ok (db : DB) (n : String) (hn : is_valid_nutrient n = true) :
    inc_goal db n =
      .ok { db with goal_events := db.goal_events ++ [⟨n, GoalKind.inc⟩] } := by
  simp [inc_goal, hn]

theorem inc_goal_bad_nutrient (db : DB) (n : String) (hn : is_valid_nutrient n = false) :
    inc_goal db n = .error (.invalidRequest "invalid nutrient") := by
  simp [inc_goal, hn]

theorem dec_goal_ok (db : DB) (n : String) (hn : is_valid_nutrient n = true)
    (hg : isNoneOrZero (goalCount db.goal_events n) = false) :
    dec_goal db n =
      .ok { db with goal_events := db.goal_events ++ [⟨n, GoalKind.dec⟩] } := by
  simp [dec_goal, hn, hg]

theorem dec_goal_guard (db : DB) (n : String) (hn : is_valid_nutrient n = true)
    (hg : isNoneOrZero (goalCount db.goal_events n) = true) :
    dec_goal db n =
      .error (.invalidRequest "cannot decrease because the goal is already 0") := by
  simp [dec_goal, hn, hg]

theorem dec_goal_bad_nutrient (db : DB) (n : String) (hn : is_valid_nutrient n = false) :
    dec_goal db n = .error (.invalidRequest "invalid nutrient") := by
  simp [dec_goal, hn]

theorem applyOp_consume_cases (db : DB) (d n : String) :
    applyOp db (Op.consume d n) = db ∨
      applyOp db (Op.consume d n) =
        { db with nutrient_events := db.nutrient_events ++ [⟨n, d, NutrientKind.consume⟩] } := by
  cases hd : is_valid_date d
  · exact Or.inl (by simp [applyOp, runOp, consume_portion_bad_date db d n hd])
  · cases hn : is_valid_nutrient n
    · exact Or.inl (by simp [applyOp, runOp, consume_portion_bad_nutrient db d n hd hn])
    · exact Or.inr (by simp [applyOp, runOp, consume_portion_ok db d n hd hn])

theorem applyOp_unconsume_cases (db : DB) (d n : String) :
    applyOp db (Op.unconsume d n) = db ∨
      (isNoneOrZero (nutrientCount db.nutrient_events d n) = false ∧
        applyOp db (Op.unconsume d n) =
          { db with nutrient_events := db.nutrient_events ++ [⟨n, d, NutrientKind.unconsume⟩] }) := by
  cases hd : is_valid_date d
  · exact Or.inl (by simp [applyOp, runOp, unconsume_portion_bad_date db d n hd])
  · cases hn : is_valid_nutrient n
    · exact Or.inl (by simp [applyOp, runOp, unconsume_portion_bad_nutrient db d n hd hn])
    · cases hg : isNoneOrZero (nutrientCount db.nutrient_events d n)
      · exact Or.inr ⟨rfl, by simp [applyOp, runOp, unconsume_portion_ok db d n hd hn hg]⟩
      · exact Or.inl (by simp [applyOp, runOp, unconsume_portion_guard db d n hd hn hg])

theorem applyOp_incGoal_cases (db : DB) (n : String) :
    applyOp db (Op.incGoal n) = db ∨
      applyOp db (Op.incGoal n) =
        { db with goal_events := db.goal_events ++ [⟨n, GoalKind.inc⟩] } := by
  cases hn : is_valid_nutrient n
  · exact Or.inl (by simp [applyOp, runOp, inc_goal_bad_nutrient db n hn])
  · exact Or.inr (by simp [applyOp, runOp, inc_goal_ok db n hn])

theorem applyOp_decGoal_cases (db : DB) (n : String) :
    applyOp db (Op.decGoal n) = db ∨
      (isNoneOrZero (goalCount db.goal_events n) = false ∧
        applyOp db (Op.decGoal n) =
          { db with goal_events := db.goal_events ++ [⟨n, GoalKind.dec⟩] }) := by
  cases hn : is_valid_nutrient n
  · exact Or.inl (by simp [applyOp, runOp, dec_goal_bad_nutrient db n hn])
  · cases hg : isNoneOrZero (goalCount db.goal_events n)
    · exact Or.inr ⟨rfl, by simp [applyOp, runOp, dec_goal_ok db n hn hg]⟩
    · exact Or.inl (by simp [applyOp, runOp, dec_goal_guard db n hn hg])

theorem applyOp_queryDay (db : DB) (d : String) : applyOp db (Op.queryDay d) = db := rfl

theorem applyOp_queryGoals (db : DB) : applyOp db Op.queryGoals = db := rfl

/-! ### The write-time guard keeps every derived value nonnegative -/

theorem portionSum_nil (d n : String) : portionSum [] d n = 0 := rfl

theorem goalSum_nil (n : String) : goalSum [] n = 0 := rfl

theorem nutrientCount_some_eq (es : List NutrientEvent) (d n : String) (v : Int)
    (h : nutrientCount es d n = some v) : v = portionSum es d n := by
  rw [nutrientCount_eq_iteAny] at h
  split at h
  · exact (Option.some_inj.mp h).symm
  · simp at h

theorem goalCount_some_eq (es : List GoalEvent) (n : String) (v : Int)
    (h : goalCount es n = some v) : v = goalSum es n := by
  rw [goalCount_eq_iteAny] at h
  split at h
  · exact (Option.some_inj.mp h).symm
  · simp at h

theorem isNoneOrZero_false_iff (o : Option Int) :
    isNoneOrZero o = false ↔ ∃ v, o = some v ∧ v ≠ 0 := by
  cases o <;> simp [isNoneOrZero]

theorem isNoneOrZero_true_iff (o : Option Int) :
    isNoneOrZero o = true ↔ o = none ∨ o = some 0 := by
  cases o <;> simp [isNoneOrZero]

theorem portionSum_append_consume (es : List NutrientEvent) (cn cd d n : String) :
    portionSum (es ++ [⟨cn, cd, NutrientKind.consume⟩]) d n =
      portionSum es d n + (if cd = d ∧ cn = n then 1 else 0) := by
  rw [portionSum_append, portionSum_single]
  by_cases h : cd = d ∧ cn = n
  · obtain ⟨rfl, rfl⟩ := h; simp [kindVal]
  · have hb : (cd == d && cn == n) = false := by
      simp only [Bool.and_eq_false_iff, beq_eq_false_iff_ne, ne_eq]
      tauto
    simp [hb, h]

theorem portionSum_append_unconsume (es : List NutrientEvent) (cn cd d n : String) :
    portionSum (es ++ [⟨cn, cd, NutrientKind.unconsume⟩]) d n =
      portionSum es d n + (if cd = d ∧ cn = n then -1 else 0) := by
  rw [portionSum_append, portionSum_single]
  by_cases h : cd = d ∧ cn = n
  · obtain ⟨rfl, rfl⟩ := h; simp [kindVal]
  · have hb : (cd == d && cn == n) = false := by
      simp only [Bool.and_eq_false_iff, beq_eq_false_iff_ne, ne_eq]
      tauto
    simp [hb, h]

theorem goalSum_append_inc (es : List GoalEvent) (cn n : String) :
    goalSum (es ++ [⟨cn, GoalKind.inc⟩]) n =
      goalSum es n + (if cn = n then 1 else 0) := by
  rw [goalSum_append, goalSum_single]
  by_cases h : cn = n
  · subst h; simp [goalKindVal]
  · have hb : (cn == n) = false := by simp [h]
    simp [hb, h]

theorem goalSum_append_dec (es : List GoalEvent) (cn n : String) :
    goalSum (es ++ [⟨cn, GoalKind.dec⟩]) n =
      goalSum es n + (if cn = n then -1 else 0) := by
  rw [goalSum_append, goalSum_single]
  by_cases h : cn = n
  · subst h; simp [goalKindVal]
  · have hb : (cn == n) = false := by simp [h]
    simp [hb, h]

theorem applyOp_nonneg (db : DB) (op : Op)
    (hp : ∀ d n, 0 ≤ portionSum db.nutrient_events d n)
    (hg : ∀ n, 0 ≤ goalSum db.goal_events n) :
    (∀ d n, 0 ≤ portionSum (applyOp db op).nutrient_events d n) ∧
    (∀ n, 0 ≤ goalSum (applyOp db op).goal_events n) := by
  cases op with
  | consume d0 n0 =>
    rcases applyOp_consume_cases db d0 n0 with hc | hc <;> rw [hc]
    · exact ⟨hp, hg⟩
    · refine ⟨fun d n => ?_, hg⟩
      show 0 ≤ portionSum (db.nutrient_events ++ [⟨n0, d0, NutrientKind.consume⟩]) d n
      rw [portionSum_append_consume]
      have h1 := hp d n
      split <;> omega
  | unconsume d0 n0 =>
    rcases applyOp_unconsume_cases db d0 n0 with hc | ⟨hguard, hc⟩ <;> rw [hc]
    · exact ⟨hp, hg⟩
    · refine ⟨fun d n => ?_, hg⟩
      show 0 ≤ portionSum (db.nutrient_events ++ [⟨n0, d0, NutrientKind.unconsume⟩]) d n
      rw [portionSum_append_unconsume]
      obtain ⟨v, hv, hv0⟩ := (isNoneOrZero_false_iff _).mp hguard
      have hveq := nutrientCount_some_eq db.nutrient_events d0 n0 v hv
      have h1 := hp d n
      have h0 := hp d0 n0
      by_cases hdn : d0 = d ∧ n0 = n
      · obtain ⟨rfl, rfl⟩ := hdn
        rw [if_pos ⟨rfl, rfl⟩]
        omega
      · rw [if_neg hdn]
        omega
  | incGoal n0 =>
    rcases applyOp_incGoal_cases db n0 with hc | hc <;> rw [hc]
    · exact ⟨hp, hg⟩
    · refine ⟨hp, fun n => ?_⟩
      show 0 ≤ goalSum (db.goal_events ++ [⟨n0, GoalKind.inc⟩]) n
      rw [goalSum_append_inc]
      have h1 := hg n
      split <;> omega
  | decGoal n0 =>
    rcases applyOp_decGoal_cases db n0 with hc | ⟨hguard, hc⟩ <;> rw [hc]
    · exact ⟨hp, hg⟩
    · refine ⟨hp, fun n => ?_⟩
      show 0 ≤ goalSum (db.goal_events ++ [⟨n0, GoalKind.dec⟩]) n
      rw [goalSum_append_dec]
      obtain ⟨v, hv, hv0⟩ := (isNoneOrZero_false_iff _).mp hguard
      have hveq := goalCount_some_eq db.goal_events n0 v hv
      have h1 := hg n
      have h0 := hg n0
      by_cases hdn : n0 = n
      · subst hdn
        rw [if_pos rfl]
        omega
      · rw [if_neg hdn]
        omega
  | queryDay d0 => exact ⟨hp, hg⟩
  | queryGoals => exact ⟨hp, hg⟩

theorem runOps_nonneg_aux (ops : List Op) (db : DB)
    (hp : ∀ d n, 0 ≤ portionSum db.nutrient_events d n)
    (hg : ∀ n, 0 ≤ goalSum db.goal_events n) :
    (∀ d n, 0 ≤ portionSum (runOps db ops).nutrient_events d n) ∧
    (∀ n, 0 ≤ goalSum (runOps db ops).goal_events n) := by
  induction ops generalizing db with
  | nil => exact ⟨hp, hg⟩
  | cons op rest ih =>
    obtain ⟨hp1, hg1⟩ := applyOp_nonneg db op hp hg
    exact ih (applyOp db op) hp1 hg1

theorem runOps_nonneg (ops : List Op) :
    (∀ d n, 0 ≤ portionSum (runOps dbEmpty ops).nutrient_events d n) ∧
    (∀ n, 0 ≤ goalSum (runOps dbEmpty ops).goal_events n) :=
  runOps_nonneg_aux ops dbEmpty (fun d n => le_of_eq (portionSum_nil d n).symm)
    (fun n => le_of_eq (goalSum_nil n).symm)

/-! ### Running replicated consume and unconsume commands -/

theorem sum_replicate_int (N : Nat) (x : Int) : (List.replicate N x).sum = N * x := by
  induction N with
  | zero => simp
  | succ N ih =>
    rw [List.replicate_succ, List.sum_cons, ih]
    push_cast
    ring

theorem runOp_consume_ok (db : DB) (d n : String)
    (hd : is_valid_date d = true) (hn : is_valid_nutrient n = true) :
    runOp db (Op.consume d n) =
      ({ db with nutrient_events := db.nutrient_events ++ [⟨n, d, NutrientKind.consume⟩] },
        .ok Output.success) := by
  simp [runOp, consume_portion_ok db d n hd hn]

theorem runOp_unconsume_ok (db : DB) (d n : String)
    (hd : is_valid_date d = true) (hn : is_valid_nutrient n = true)
    (hg : isNoneOrZero (nutrientCount db.nutrient_events d n) = false) :
    runOp db (Op.unconsume d n) =
      ({ db with nutrient_events := db.nutrient_events ++ [⟨n, d, NutrientKind.unconsume⟩] },
        .ok Output.success) := by
  simp [runOp, unconsume_portion_ok db d n hd hn hg]

theorem runAll_cons_ok (db db1 : DB) (op : Op) (o : Output) (rest : List Op)
    (h : runOp db op = (db1, .ok o)) :
    runAll db (op :: rest) = runAll db1 rest := by
  simp [runAll, h]

theorem runAll_consumes (d n : String)
    (hd : is_valid_date d = true) (hn : is_valid_nutrient n = true) :
    ∀ (N : Nat) (db : DB) (rest : List Op),
      runAll db (List.replicate N (Op.consume d n) ++ rest) =
        runAll { db with nutrient_events :=
          db.nutrient_events ++ List.replicate N ⟨n, d, NutrientKind.consume⟩ } rest := by
  intro N
  induction N with
  | zero => intro db rest; simp
  | succ N ih =>
    intro db rest
    rw [List.replicate_succ, List.cons_append,
      runAll_cons_ok db _ _ _ _ (runOp_consume_ok db d n hd hn), ih]
    congr 1
    simp [List.replicate_succ, List.append_assoc]

theorem nutrientCount_some_any (es : List NutrientEvent) (d n : String) (v : Int)
    (h : nutrientCount es d n = some v) :
    (es.any fun e => e.date == d && e.name == n) = true := by
  rw [nutrientCount_eq_iteAny] at h
  split at h
  · assumption
  · simp at h

theorem runAll_unconsumes (d n : String)
    (hd : is_valid_date d = true) (hn : is_valid_nutrient n = true) :
    ∀ (M : Nat) (db : DB) (s : Int),
      nutrientCount db.nutrient_events d n = some s → (M : Int) ≤ s →
      runAll db (List.replicate M (Op.unconsume d n)) =
        some { db with nutrient_events :=
          db.nutrient_events ++ List.replicate M ⟨n, d, NutrientKind.unconsume⟩ } := by
  intro M
  induction M with
  | zero => intro db s hs hM; simp [runAll]
  | succ M ih =>
    intro db s hs hM
    have hM1 : (M : Int) + 1 ≤ s := by push_cast at hM; omega
    have hg : isNoneOrZero (nutrientCount db.nutrient_events d n) = false := by
      rw [hs]
      simp only [isNoneOrZero, beq_eq_false_iff_ne, ne_eq]
      omega
    have hps := nutrientCount_some_eq db.nutrient_events d n s hs
    have hcount : nutrientCount (db.nutrient_events ++ [⟨n, d, NutrientKind.unconsume⟩]) d n
        = some (s - 1) := by
      rw [nutrientCount_append_matching db.nutrient_events _ d n (by simp)]
      rw [show portionSum db.nutrient_events d n + kindVal NutrientKind.unconsume = s - 1 by
        simp only [kindVal]; omega]
    rw [List.replicate_succ,
      runAll_cons_ok db _ _ _ _ (runOp_unconsume_ok db d n hd hn hg)]
    rw [ih _ (s - 1) hcount (by omega)]
    congr 1
    simp [List.replicate_succ, List.append_assoc]

theorem portionSum_of_no_match (es : List NutrientEvent) (d n : String)
    (hfresh : (es.any fun e => e.date == d && e.name == n) = false) :
    portionSum es d n = 0 := by
  have hnil : (es.filter fun e => e.date == d && e.name == n) = [] := by
    rw [List.filter_eq_nil_iff]
    exact List.any_eq_false.mp hfresh
  rw [portionSum, hnil]
  rfl

theorem nutrientCount_fresh_consumes (db : DB) (d n : String) (N : Nat)
    (hfresh : (db.nutrient_events.any fun e => e.date == d && e.name == n) = false)
    (hN : 1 ≤ N) :
    nutrientCount (db.nutrient_events ++ List.replicate N ⟨n, d, NutrientKind.consume⟩) d n
      = some (N : Int) := by
  rw [nutrientCount_eq_iteAny]
  have hany : ((db.nutrient_events ++
      List.replicate N (⟨n, d, NutrientKind.consume⟩ : NutrientEvent)).any
      fun e => e.date == d && e.name == n) = true := by
    rw [List.any_append, hfresh, Bool.false_or, List.any_eq_true]
    exact ⟨_, List.mem_replicate.mpr ⟨by omega, rfl⟩, by simp⟩
  rw [if_pos hany]
  have hsum : portionSum (db.nutrient_events ++
      List.replicate N (⟨n, d, NutrientKind.consume⟩ : NutrientEvent)) d n = (N : Int) := by
    rw [portionSum_append, portionSum_of_no_match db.nutrient_events d n hfresh]
    rw [portionSum, List.filter_replicate_of_pos (by simp), List.map_replicate,
      sum_replicate_int]
    simp [kindVal]
  rw [hsum]

/-- N consume commands followed by M unconsume commands (M ≤ N, 1 ≤ N) on a
(date, nutrient) with no prior events: every command succeeds and the day
query then reports the nutrient at N - M. -/
theorem consumeN_unconsumeM (db : DB) (d n : String) (N M : Nat)
    (hd : is_valid_date d = true) (hn : is_valid_nutrient n = true)
    (hN : 1 ≤ N) (hM : M ≤ N)
    (hfresh : (db.nutrient_events.any fun e => e.date == d && e.name == n) = false) :
    ∃ db2,
      runAll db (List.replicate N (Op.consume d n) ++ List.replicate M (Op.unconsume d n))
        = some db2 ∧
      lookupVal (get_portions_for_date db2 d) n = some ((N : Int) - (M : Int)) := by
  rw [runAll_consumes d n hd hn N db _]
  have hcount1 : nutrientCount
      (db.nutrient_events ++ List.replicate N (⟨n, d, NutrientKind.consume⟩ : NutrientEvent))
      d n = some (N : Int) :=
    nutrientCount_fresh_consumes db d n N hfresh hN
  have hMle : ((M : Nat) : Int) ≤ ((N : Nat) : Int) := by exact_mod_cast hM
  rw [runAll_unconsumes d n hd hn M
    { db with nutrient_events :=
        db.nutrient_events ++ List.replicate N ⟨n, d, NutrientKind.consume⟩ }
    (N : Int) hcount1 hMle]
  refine ⟨_, rfl, ?_⟩
  rw [lookupVal_get_portions]
  show nutrientCount
    ((db.nutrient_events ++ List.replicate N (⟨n, d, NutrientKind.consume⟩ : NutrientEvent)) ++
      List.replicate M (⟨n, d, NutrientKind.unconsume⟩ : NutrientEvent)) d n
    = some ((N : Int) - (M : Int))
  rw [nutrientCount_eq_iteAny]
  have hany : (((db.nutrient_events ++
      List.replicate N (⟨n, d, NutrientKind.consume⟩ : NutrientEvent)) ++
      List.replicate M (⟨n, d, NutrientKind.unconsume⟩ : NutrientEvent)).any
      fun e => e.date == d && e.name == n) = true := by
    rw [List.any_append]
    rw [nutrientCount_some_any _ d n (N : Int) hcount1]
    rfl
  rw [if_pos hany]
  have hsum1 := nutrientCount_some_eq _ d n (N : Int) hcount1
  rw [portionSum_append, ← hsum1]
  rw [portionSum, List.filter_replicate_of_pos (by simp), List.map_replicate,
    sum_replicate_int]
  simp only [kindVal]
  ring_nf

/-! ### What the unanchored date regex accepts -/

theorem datePatternAt_iff (cs : List Char) :
    datePatternAt cs = true ↔
      ∃ a b c d e f g h t,
        cs = a :: b :: c :: d :: '-' :: e :: f :: '-' :: g :: h :: t ∧
        (a.isDigit && b.isDigit && c.isDigit && d.isDigit &&
         e.isDigit && f.isDigit && g.isDigit && h.isDigit) = true := by
  constructor
  · intro hm
    unfold datePatternAt at hm
    split at hm
    · rename_i t
      exact ⟨_, _, _, _, _, _, _, _, t, rfl, hm⟩
    · simp at hm
  · rintro ⟨a, b, c, d, e, f, g, h, t, rfl, hdig⟩
    exact hdig

theorem searchDatePattern_iff (cs : List Char) :
    searchDatePattern cs = true ↔
      ∃ p a b c d e f g h t,
        cs = p ++ a :: b :: c :: d :: '-' :: e :: f :: '-' :: g :: h :: t ∧
        (a.isDigit && b.isDigit && c.isDigit && d.isDigit &&
         e.isDigit && f.isDigit && g.isDigit && h.isDigit) = true := by
  induction cs with
  | nil =>
    constructor
    · intro hm; simp [searchDatePattern] at hm
    · rintro ⟨p, a, b, c, d, e, f, g, h, t, heq, _⟩
      exfalso
      cases p <;> simp at heq
  | cons x xs ih =>
    rw [searchDatePattern, Bool.or_eq_true]
    constructor
    · intro hm
      rcases hm with hm | hm
      · obtain ⟨a, b, c, d, e, f, g, h, t, heq, hdig⟩ := (datePatternAt_iff _).mp hm
        exact ⟨[], a, b, c, d, e, f, g, h, t, heq, hdig⟩
      · obtain ⟨p, a, b, c, d, e, f, g, h, t, heq, hdig⟩ := ih.mp hm
        exact ⟨x :: p, a, b, c, d, e, f, g, h, t, by rw [List.cons_append, heq], hdig⟩
    · rintro ⟨p, a, b, c, d, e, f, g, h, t, heq, hdig⟩
      cases p with
      | nil =>
        left
        rw [List.nil_append] at heq
        exact (datePatternAt_iff _).mpr ⟨a, b, c, d, e, f, g, h, t, heq, hdig⟩
      | cons y p2 =>
        right
        rw [List.cons_append] at heq
        injection heq with h1 h2
        exact ih.mpr ⟨p2, a, b, c, d, e, f, g, h, t, h2, hdig⟩

/-! ### Queries read but never write -/

theorem applyOp_of_isQuery (db : DB) (op : Op) (h : op.isQuery = true) :
    applyOp db op = db := by
  cases op with
  | queryDay d => rfl
  | queryGoals => rfl
  | consume d n => simp [Op.isQuery] at h
  | unconsume d n => simp [Op.isQuery] at h
  | incGoal n => simp [Op.isQuery] at h
  | decGoal n => simp [Op.isQuery] at h

theorem runOps_of_queries (db : DB) (ops : List Op)
    (h : ∀ op ∈ ops, op.isQuery = true) : runOps db ops = db := by
  induction ops generalizing db with
  | nil => rfl
  | cons op rest ih =>
    have h1 := h op (List.mem_cons_self op rest)
    have h2 : ∀ o ∈ rest, o.isQuery = true := fun o ho => h o (List.mem_cons_of_mem _ ho)
    show runOps (applyOp db op) rest = db
    rw [applyOp_of_isQuery db op h1]
    exact ih db h2

/-! ### The grouped result carries each key at most once -/

theorem keys_addRow (m : List (String × Int)) (k : String) (v : Int) :
    (addRow m k v).map Prod.fst =
      if m.any (fun r => r.1 == k) then m.map Prod.fst else m.map Prod.fst ++ [k] := by
  induction m with
  | nil => simp [addRow]
  | cons p rest ih =>
    obtain ⟨k0, v0⟩ := p
    by_cases h : k0 = k
    · subst h; simp [addRow]
    · have hb : (k0 == k) = false := by simp [h]
      cases ha : rest.any (fun r => r.1 == k) <;> simp [addRow, hb, ih, ha]

theorem not_mem_keys_of_any_false (m : List (String × Int)) (k : String)
    (h : (m.any fun r => r.1 == k) = false) : k ∉ m.map Prod.fst := by
  intro hmem
  obtain ⟨r, hr, hfst⟩ := List.mem_map.mp hmem
  have := List.any_eq_false.mp h r hr
  simp [hfst] at this

theorem nodup_keys_addRow (m : List (String × Int)) (k : String) (v : Int)
    (h : (m.map Prod.fst).Nodup) : ((addRow m k v).map Prod.fst).Nodup := by
  rw [keys_addRow]
  cases ha : m.any (fun r => r.1 == k)
  · rw [if_neg (by simp)]
    rw [← List.concat_eq_append]
    exact List.Nodup.concat (not_mem_keys_of_any_false m k ha) h
  · rw [if_pos rfl]
    exact h

theorem nodup_keys_groupSum (rows : List (String × Int)) :
    ((groupSum rows).map Prod.fst).Nodup := by
  rw [groupSum]
  suffices hgen : ∀ m : List (String × Int), (m.map Prod.fst).Nodup →
      ((rows.foldl (fun acc r => addRow acc r.1 r.2) m).map Prod.fst).Nodup by
    exact hgen [] (by simp)
  induction rows with
  | nil => exact fun m hm => hm
  | cons r rest ih =>
    intro m hm
    exact ih (addRow m r.1 r.2) (nodup_keys_addRow m r.1 r.2 hm)

/-- The day query on a date with no matching events yields the empty map. -/
theorem get_portions_unseen (db : DB) (d : String)
    (hall : (db.nutrient_events.all fun e => !(e.date == d)) = true) :
    get_portions_for_date db d = [] := by
  rw [get_portions_for_date]
  have hnil : (db.nutrient_events.filter fun e => e.date == d) = [] := by
    rw [List.filter_eq_nil_iff]
    intro a ha
    have hx := List.all_eq_true.mp hall a ha
    simp only [Bool.not_eq_true'] at hx
    simp [hx]
  rw [hnil]
  rfl

/-! ### The claims -/

/-- C1: for every sequence of API operations from the empty log, every value
a day query or the goals query reports (the number of consume/inc events
minus the number of unconsume/dec events for that key) is nonnegative. -/
theorem C1_derived_value_never_negative (ops : List Op) (d n : String) (v : Int) :
    (lookupVal (get_portions_for_date (runOps dbEmpty ops) d) n = some v → 0 ≤ v) ∧
    (lookupVal (get_goals (runOps dbEmpty ops)) n = some v → 0 ≤ v) := by
  obtain ⟨hp, hg⟩ := runOps_nonneg ops
  constructor
  · intro h
    rw [lookupVal_get_portions] at h
    have h1 := nutrientCount_some_eq _ d n v h
    have h2 := hp d n
    omega
  · intro h
    rw [lookupVal_get_goals] at h
    have h1 := goalCount_some_eq _ n v h
    have h2 := hg n
    omega

/-- Witness for C1 at one consume. -/
theorem C1_witness :
    lookupVal (get_portions_for_date (runOps dbEmpty [Op.consume "2026-01-01" "protein"])
      "2026-01-01") "protein" = some 1 ∧ (0 : Int) ≤ 1 :=
  ⟨by decide,
    (C1_derived_value_never_negative [Op.consume "2026-01-01" "protein"]
      "2026-01-01" "protein" 1).1 (by decide)⟩

/-- C2 counterexample: at N = 0, M = 0 the whole command sequence succeeds
but the day query omits the nutrient instead of mapping it to 0 - 0. -/
theorem C2_counterexample_N_zero :
    runAll dbEmpty (List.replicate 0 (Op.consume "2026-01-01" "protein") ++
      List.replicate 0 (Op.unconsume "2026-01-01" "protein")) = some dbEmpty ∧
    lookupVal (get_portions_for_date dbEmpty "2026-01-01") "protein"
      ≠ some ((0 : Int) - 0) := by
  exact ⟨rfl, by decide⟩

/-- C2 (amended): for every valid (date, nutrient) with no prior events,
1 ≤ N consumes followed by M ≤ N unconsumes all succeed and the day query
then maps the nutrient to N - M; and a consume after passing validation
always succeeds, appending exactly one consume event. -/
theorem C2_amended_consume_unconsume_counts (db : DB) (d n : String) (N M : Nat)
    (hd : is_valid_date d = true) (hn : is_valid_nutrient n = true)
    (hN : 1 ≤ N) (hM : M ≤ N)
    (hfresh : (db.nutrient_events.any fun e => e.date == d && e.name == n) = false) :
    (∃ db2,
      runAll db (List.replicate N (Op.consume d n) ++ List.replicate M (Op.unconsume d n))
        = some db2 ∧
      lookupVal (get_portions_for_date db2 d) n = some ((N : Int) - (M : Int))) ∧
    (∀ db3 : DB, consume_portion db3 d n =
      .ok { db3 with nutrient_events := db3.nutrient_events ++ [⟨n, d, NutrientKind.consume⟩] }) :=
  ⟨consumeN_unconsumeM db d n N M hd hn hN hM hfresh,
    fun db3 => consume_portion_ok db3 d n hd hn⟩

/-- Witness for C2 (amended) at N = M = 1. -/
theorem C2_witness :
    ∃ db2,
      runAll dbEmpty (List.replicate 1 (Op.consume "2026-01-01" "protein") ++
        List.replicate 1 (Op.unconsume "2026-01-01" "protein")) = some db2 ∧
      lookupVal (get_portions_for_date db2 "2026-01-01") "protein"
        = some ((1 : Int) - 1) :=
  (C2_amended_consume_unconsume_counts dbEmpty "2026-01-01" "protein" 1 1
    (by decide) (by decide) (by decide) (by decide) (by decide)).1

/-- C3: after validation, unconsume (resp. dec) fails with InvalidRequest and
appends nothing when the aggregated value is absent or zero, and otherwise
appends exactly one unconsume (resp. dec) event and succeeds. -/
theorem C3_decrement_guard (db : DB) (d n : String)
    (hd : is_valid_date d = true) (hn : is_valid_nutrient n = true) :
    ((nutrientCount db.nutrient_events d n = none ∨
        nutrientCount db.nutrient_events d n = some 0) →
      unconsume_portion db d n =
        .error (.invalidRequest "cannot unconsume because the count is already 0") ∧
      applyOp db (Op.unconsume d n) = db) ∧
    (∀ v, nutrientCount db.nutrient_events d n = some v → v ≠ 0 →
      unconsume_portion db d n =
        .ok { db with nutrient_events :=
          db.nutrient_events ++ [⟨n, d, NutrientKind.unconsume⟩] }) ∧
    ((goalCount db.goal_events n = none ∨ goalCount db.goal_events n = some 0) →
      dec_goal db n =
        .error (.invalidRequest "cannot decrease because the goal is already 0") ∧
      applyOp db (Op.decGoal n) = db) ∧
    (∀ v, goalCount db.goal_events n = some v → v ≠ 0 →
      dec_goal db n =
        .ok { db with goal_events := db.goal_events ++ [⟨n, GoalKind.dec⟩] }) := by
  refine ⟨?_, ?_, ?_, ?_⟩
  · intro hcase
    have hg : isNoneOrZero (nutrientCount db.nutrient_events d n) = true :=
      (isNoneOrZero_true_iff _).mpr hcase
    exact ⟨unconsume_portion_guard db d n hd hn hg,
      by simp [applyOp, runOp, unconsume_portion_guard db d n hd hn hg]⟩
  · intro v hv hv0
    exact unconsume_portion_ok db d n hd hn ((isNoneOrZero_false_iff _).mpr ⟨v, hv, hv0⟩)
  · intro hcase
    have hg2 : isNoneOrZero (goalCount db.goal_events n) = true :=
      (isNoneOrZero_true_iff _).mpr hcase
    exact ⟨dec_goal_guard db n hn hg2,
      by simp [applyOp, runOp, dec_goal_guard db n hn hg2]⟩
  · intro v hv hv0
    exact dec_goal_ok db n hn ((isNoneOrZero_false_iff _).mpr ⟨v, hv, hv0⟩)

/-- Witness for C3 on the empty store (count absent). -/
theorem C3_witness :
    unconsume_portion dbEmpty "2026-01-01" "protein" =
      .error (.invalidRequest "cannot unconsume because the count is already 0") ∧
    applyOp dbEmpty (Op.unconsume "2026-01-01" "protein") = dbEmpty :=
  (C3_decrement_guard dbEmpty "2026-01-01" "protein" (by decide) (by decide)).1
    (Or.inl (by decide))

/-- C4: aggregation sums +1 per consume/inc and -1 per unconsume/dec over the
filtered events, emits exactly one entry per subject having at least one such
event (keys are pairwise distinct), omits subjects with none, and yields the
empty mapping on an empty ledger or an unseen date. -/
theorem C4_aggregation_shape (db : DB) (d n : String) :
    (lookupVal (get_portions_for_date db d) n =
      if db.nutrient_events.any (fun e => e.date == d && e.name == n)
      then some (portionSum db.nutrient_events d n) else none) ∧
    (lookupVal (get_goals db) n =
      if db.goal_events.any (fun e => e.nutrient == n)
      then some (goalSum db.goal_events n) else none) ∧
    ((get_portions_for_date db d).map Prod.fst).Nodup ∧
    ((get_goals db).map Prod.fst).Nodup ∧
    get_portions_for_date dbEmpty d = [] ∧
    get_goals dbEmpty = [] ∧
    ((db.nutrient_events.all fun e => !(e.date == d)) = true →
      get_portions_for_date db d = []) := by
  refine ⟨?_, ?_, nodup_keys_groupSum _, nodup_keys_groupSum _, rfl, rfl,
    get_portions_unseen db d⟩
  · rw [lookupVal_get_portions, nutrientCount_eq_iteAny]
  · rw [lookupVal_get_goals, goalCount_eq_iteAny]

/-- Witness for C4 on an unseen date. -/
theorem C4_witness :
    get_portions_for_date
      (⟨[⟨"protein", "2026-01-01", NutrientKind.consume⟩], []⟩ : DB) "2026-01-02" = [] :=
  (C4_aggregation_shape ⟨[⟨"protein", "2026-01-01", NutrientKind.consume⟩], []⟩
    "2026-01-02" "protein").2.2.2.2.2.2 (by decide)

/-- C5 counterexample: the date check is an unanchored search, so the string
x2026-01-01, which does not itself have the shape dddd-dd-dd, is accepted. -/
theorem C5_counterexample_unanchored :
    is_valid_date "x2026-01-01" = true ∧ specDateExactMatch "x2026-01-01" = false := by
  exact ⟨by decide, by decide⟩

/-- C5 (amended): is_valid_date s is true iff some substring of s matches
the pattern dddd-dd-dd (no calendar check); the consume and unconsume
commands reject any date failing this check with InvalidRequest and leave
the store unchanged. -/
theorem C5_amended_date_validation :
    (∀ s : String, is_valid_date s = true ↔
      ∃ p a b c d e f g h t,
        s.data = p ++ a :: b :: c :: d :: '-' :: e :: f :: '-' :: g :: h :: t ∧
        (a.isDigit && b.isDigit && c.isDigit && d.isDigit &&
         e.isDigit && f.isDigit && g.isDigit && h.isDigit) = true) ∧
    (∀ (db : DB) (d n : String), is_valid_date d = false →
      consume_portion db d n = .error (.invalidRequest "invalid date") ∧
      unconsume_portion db d n = .error (.invalidRequest "invalid date") ∧
      applyOp db (Op.consume d n) = db ∧ applyOp db (Op.unconsume d n) = db) := by
  constructor
  · intro s
    exact searchDatePattern_iff s.data
  · intro db d n hd
    refine ⟨consume_portion_bad_date db d n hd, unconsume_portion_bad_date db d n hd,
      ?_, ?_⟩
    · simp [applyOp, runOp, consume_portion_bad_date db d n hd]
    · simp [applyOp, runOp, unconsume_portion_bad_date db d n hd]

/-- Witness for C5 (amended) on a malformed date. -/
theorem C5_witness :
    consume_portion dbEmpty "2026-1-1" "protein" =
      .error (.invalidRequest "invalid date") ∧
    unconsume_portion dbEmpty "2026-1-1" "protein" =
      .error (.invalidRequest "invalid date") ∧
    applyOp dbEmpty (Op.consume "2026-1-1" "protein") = dbEmpty ∧
    applyOp dbEmpty (Op.unconsume "2026-1-1" "protein") = dbEmpty :=
  C5_amended_date_validation.2 dbEmpty "2026-1-1" "protein" (by decide)

/-- C6 counterexample: after one consume and one unconsume the current count
is 0, yet the day query reports the key with value 0 instead of omitting it
(the repository test test_unconsume_validation_zero asserts exactly this). -/
theorem C6_counterexample_zero_reported :
    lookupVal (get_portions_for_date
      (runOps dbEmpty [Op.consume "2026-01-01" "protein",
        Op.unconsume "2026-01-01" "protein"]) "2026-01-01") "protein" = some 0 := by
  decide

/-- C6 (amended): a key with no events is missing from the query result; a
key with at least one event is reported with its current count, zero
included; the unconsume guard treats a missing count and a zero count
identically (both yield the same InvalidRequest). -/
theorem C6_amended_zero_vs_missing (db : DB) (d n : String) :
    ((db.nutrient_events.any fun e => e.date == d && e.name == n) = false →
      lookupVal (get_portions_for_date db d) n = none) ∧
    ((db.nutrient_events.any fun e => e.date == d && e.name == n) = true →
      lookupVal (get_portions_for_date db d) n = some (portionSum db.nutrient_events d n)) ∧
    (isNoneOrZero (nutrientCount db.nutrient_events d n) = true ↔
      (nutrientCount db.nutrient_events d n = none ∨
        nutrientCount db.nutrient_events d n = some 0)) ∧
    (is_valid_date d = true → is_valid_nutrient n = true →
      (nutrientCount db.nutrient_events d n = none ∨
        nutrientCount db.nutrient_events d n = some 0) →
      unconsume_portion db d n =
        .error (.invalidRequest "cannot unconsume because the count is already 0")) := by
  refine ⟨?_, ?_, isNoneOrZero_true_iff _, ?_⟩
  · intro h
    rw [lookupVal_get_portions, nutrientCount_eq_iteAny, if_neg (by simp [h])]
  · intro h
    rw [lookupVal_get_portions, nutrientCount_eq_iteAny, if_pos h]
  · intro hd hn hcase
    exact unconsume_portion_guard db d n hd hn ((isNoneOrZero_true_iff _).mpr hcase)

/-- Witness for C6 (amended) on a store whose only key has count 0. -/
theorem C6_witness :
    lookupVal (get_portions_for_date
      (⟨[⟨"protein", "2026-01-01", NutrientKind.consume⟩,
         ⟨"protein", "2026-01-01", NutrientKind.unconsume⟩], []⟩ : DB) "2026-01-01") "protein"
      = some (portionSum
        [⟨"protein", "2026-01-01", NutrientKind.consume⟩,
         ⟨"protein", "2026-01-01", NutrientKind.unconsume⟩] "2026-01-01" "protein") :=
  (C6_amended_zero_vs_missing
    ⟨[⟨"protein", "2026-01-01", NutrientKind.consume⟩,
      ⟨"protein", "2026-01-01", NutrientKind.unconsume⟩], []⟩
    "2026-01-01" "protein").2.1 (by decide)

/-- C7: is_valid_nutrient is an exact, case-sensitive membership test against
the four names, and every command rejects any other name with
InvalidRequest, appending nothing, even on a valid date. -/
theorem C7_nutrient_validation :
    (∀ s : String, is_valid_nutrient s = true ↔
      (s = "protein" ∨ s = "carbs" ∨ s = "vegetables" ∨ s = "fats")) ∧
    (∀ (db : DB) (d n : String), is_valid_date d = true → is_valid_nutrient n = false →
      consume_portion db d n = .error (.invalidRequest "invalid nutrient") ∧
      unconsume_portion db d n = .error (.invalidRequest "invalid nutrient") ∧
      inc_goal db n = .error (.invalidRequest "invalid nutrient") ∧
      dec_goal db n = .error (.invalidRequest "invalid nutrient") ∧
      applyOp db (Op.consume d n) = db ∧ applyOp db (Op.unconsume d n) = db ∧
      applyOp db (Op.incGoal n) = db ∧ applyOp db (Op.decGoal n) = db) := by
  constructor
  · intro s
    simp [is_valid_nutrient, List.contains]
  · intro db d n hd hn
    refine ⟨consume_portion_bad_nutrient db d n hd hn,
      unconsume_portion_bad_nutrient db d n hd hn,
      inc_goal_bad_nutrient db n hn, dec_goal_bad_nutrient db n hn, ?_, ?_, ?_, ?_⟩
    · simp [applyOp, runOp, consume_portion_bad_nutrient db d n hd hn]
    · simp [applyOp, runOp, unconsume_portion_bad_nutrient db d n hd hn]
    · simp [applyOp, runOp, inc_goal_bad_nutrient db n hn]
    · simp [applyOp, runOp, dec_goal_bad_nutrient db n hn]

/-- Witness for C7 on the (case-mismatched) name Protein. -/
theorem C7_witness :
    consume_portion dbEmpty "2026-01-01" "Protein" =
      .error (.invalidRequest "invalid nutrient") ∧
    unconsume_portion dbEmpty "2026-01-01" "Protein" =
      .error (.invalidRequest "invalid nutrient") ∧
    inc_goal dbEmpty "Protein" = .error (.invalidRequest "invalid nutrient") ∧
    dec_goal dbEmpty "Protein" = .error (.invalidRequest "invalid nutrient") ∧
    applyOp dbEmpty (Op.consume "2026-01-01" "Protein") = dbEmpty ∧
    applyOp dbEmpty (Op.unconsume "2026-01-01" "Protein") = dbEmpty ∧
    applyOp dbEmpty (Op.incGoal "Protein") = dbEmpty ∧
    applyOp dbEmpty (Op.decGoal "Protein") = dbEmpty :=
  C7_nutrient_validation.2 dbEmpty "2026-01-01" "Protein" (by decide) (by decide)

/-- C8: the day query never fails for any date string: it always answers with
the aggregation over exactly the events whose stored date equals the given
string, and answers the empty mapping when no event matches. -/
theorem C8_queryDay_never_fails (db : DB) (d : String) :
    (runOp db (Op.queryDay d)).2 = .ok (.dayMap (get_portions_for_date db d)) ∧
    (∀ n, lookupVal (get_portions_for_date db d) n = nutrientCount db.nutrient_events d n) ∧
    ((db.nutrient_events.all fun e => !(e.date == d)) = true →
      get_portions_for_date db d = []) :=
  ⟨rfl, fun n => lookupVal_get_portions db d n, get_portions_unseen db d⟩

/-- Witness for C8 on a date string that is not even shaped like a date. -/
theorem C8_witness :
    get_portions_for_date
      (⟨[⟨"protein", "2026-01-01", NutrientKind.consume⟩], []⟩ : DB) "not-a-date" = [] :=
  (C8_queryDay_never_fails
    ⟨[⟨"protein", "2026-01-01", NutrientKind.consume⟩], []⟩ "not-a-date").2.2 (by decide)

/-- C9: both queries are pure and deterministic functions of the event log:
a run of query-only operations leaves the store unchanged, so repeating the
same query with no intervening writes returns the identical response. -/
theorem C9_queries_pure (db : DB) (ops : List Op) (d : String)
    (hq : ∀ op ∈ ops, op.isQuery = true) :
    runOps db ops = db ∧
    (runOp (runOps db ops) (Op.queryDay d)).2 = (runOp db (Op.queryDay d)).2 ∧
    (runOp (runOps db ops) Op.queryGoals).2 = (runOp db Op.queryGoals).2 := by
  have h := runOps_of_queries db ops hq
  exact ⟨h, by rw [h], by rw [h]⟩

/-- Witness for C9 with two interleaved queries. -/
theorem C9_witness :
    runOps dbEmpty [Op.queryDay "2026-01-01", Op.queryGoals] = dbEmpty :=
  (C9_queries_pure dbEmpty [Op.queryDay "2026-01-01", Op.queryGoals] "2026-01-01"
    (by decide)).1

/-- C10: the two ledgers are isolated: nutrient operations leave the goal
table, and hence the goals query, unchanged, and goal operations leave the
nutrient table, and hence every day query, unchanged. -/
theorem C10_ledger_isolation (db : DB) (d n d2 : String) :
    (applyOp db (Op.consume d n)).goal_events = db.goal_events ∧
    (applyOp db (Op.unconsume d n)).goal_events = db.goal_events ∧
    (applyOp db (Op.queryDay d)).goal_events = db.goal_events ∧
    (applyOp db (Op.incGoal n)).nutrient_events = db.nutrient_events ∧
    (applyOp db (Op.decGoal n)).nutrient_events = db.nutrient_events ∧
    (applyOp db Op.queryGoals).nutrient_events = db.nutrient_events ∧
    get_goals (applyOp db (Op.consume d n)) = get_goals db ∧
    get_goals (applyOp db (Op.unconsume d n)) = get_goals db ∧
    get_goals (applyOp db (Op.queryDay d)) = get_goals db ∧
    get_portions_for_date (applyOp db (Op.incGoal n)) d2 = get_portions_for_date db d2 ∧
    get_portions_for_date (applyOp db (Op.decGoal n)) d2 = get_portions_for_date db d2 ∧
    get_portions_for_date (applyOp db Op.queryGoals) d2 = get_portions_for_date db d2 := by
  have hc : (applyOp db (Op.consume d n)).goal_events = db.goal_events := by
    rcases applyOp_consume_cases db d n with h | h <;> rw [h]
  have hu : (applyOp db (Op.unconsume d n)).goal_events = db.goal_events := by
    rcases applyOp_unconsume_cases db d n with h | ⟨_, h⟩ <;> rw [h]
  have hi : (applyOp db (Op.incGoal n)).nutrient_events = db.nutrient_events := by
    rcases applyOp_incGoal_cases db n with h | h <;> rw [h]
  have hdc : (applyOp db (Op.decGoal n)).nutrient_events = db.nutrient_events := by
    rcases applyOp_decGoal_cases db n with h | ⟨_, h⟩ <;> rw [h]
  refine ⟨hc, hu, rfl, hi, hdc, rfl, ?_, ?_, rfl, ?_, ?_, rfl⟩
  · rw [get_goals, get_goals, hc]
  · rw [get_goals, get_goals, hu]
  · rw [get_portions_for_date, get_portions_for_date, hi]
  · rw [get_portions_for_date, get_portions_for_date, hdc]
